import Mathlib

/-!
Shallow embedding of `src/dwd_influx.py`, a loader that converts DWD open
climate data (multi-annual monthly means and 10-minute station observations)
into time-series points.  Pure fragments of the Python source are translated
into executable Lean definitions; the external collaborators (HTTP fetcher,
HTML lister, zip reader, sink) are passed in as explicit function arguments.
Numeric values are modelled as rationals, Python `None` as `Option`/a null
value constructor, and an aborted run (uncaught exception) as `Except.error`.
-/

namespace DwdInflux

/-- Characters treated as whitespace by Python `str.strip` (the ASCII subset,
which is all that occurs in the data). -/
def isPySpace (c : Char) : Bool :=
  c = ' ' ∨ c = '\t' ∨ c = '\n' ∨ c = '\r' ∨ c = '\x0b' ∨ c = '\x0c'

/-- Python `str.strip()`. -/
def pyStrip (s : String) : String :=
  String.mk (((s.toList.dropWhile isPySpace).reverse.dropWhile isPySpace).reverse)

/-- Helper for `splitChar`: accumulates the current chunk (reversed). -/
def splitCharAux (c : Char) : List Char → List Char → List (List Char)
  | [], acc => [acc.reverse]
  | d :: ds, acc =>
    if d = c then acc.reverse :: splitCharAux c ds []
    else splitCharAux c ds (d :: acc)

/-- Python `str.split(sep)` for a one-character separator: keeps empty chunks,
never returns an empty list. -/
def splitChar (c : Char) (s : String) : List String :=
  (splitCharAux c s.toList []).map String.mk

/-- Python `str.startswith(p)`. -/
def pyStartswith (s p : String) : Bool :=
  decide (s.toList.take p.toList.length = p.toList)

/-- Python `str.endswith(p)`. -/
def pyEndswith (s p : String) : Bool :=
  decide (s.toList.reverse.take p.toList.length = p.toList.reverse)

/-- Python `str.replace(",", ".")` for the one-character pattern used by the
decoders. -/
def substComma (s : String) : String :=
  String.mk (s.toList.map fun c => if c = ',' then '.' else c)

/-- Python `str.zfill(w)` on a character list: left-pad with zeros to width
`w`, keeping a leading sign character in front of the padding. -/
def zfillList (w : Nat) : List Char → List Char
  | [] => List.replicate w '0'
  | c :: rest =>
    if c = '-' ∨ c = '+' then c :: (List.replicate (w - (rest.length + 1)) '0' ++ rest)
    else List.replicate (w - (rest.length + 1)) '0' ++ (c :: rest)

/-- Python `str.zfill(w)`. -/
def zfill (s : String) (w : Nat) : String :=
  String.mk (zfillList w s.toList)

/-- Numeric value of a digit string (only applied to all-digit lists). -/
def natOfDigits (cs : List Char) : Nat :=
  cs.foldl (fun a c => a * 10 + (c.toNat - 48)) 0

/-- Python `float(s)` on optionally signed decimal literals such as `-999`,
`42.5`, `5.`, `.5` (the token shapes occurring in the data); anything else,
including the empty string, fails (ValueError).  The value of `ip.fr` is the
exact rational `(ip ++ fr) / 10 ^ length fr`, built with `mkRat`. -/
def pyFloat (s : String) : Option ℚ :=
  let cs := s.toList
  let neg := cs.head? = some '-'
  let ds := if cs.head? = some '-' ∨ cs.head? = some '+' then cs.tail else cs
  let ip := ds.takeWhile Char.isDigit
  let rest := ds.dropWhile Char.isDigit
  match rest with
  | [] =>
    if ip.isEmpty then Option.none
    else some (mkRat (if neg then -(natOfDigits ip : Int) else (natOfDigits ip : Int)) 1)
  | '.' :: fr =>
    if fr.all Char.isDigit ∧ ¬ (ip.isEmpty ∧ fr.isEmpty) then
      some (mkRat
        (if neg then -(natOfDigits (ip ++ fr) : Int) else (natOfDigits (ip ++ fr) : Int))
        (10 ^ fr.length))
    else Option.none
  | _ => Option.none

/-- Python `int(s)` on optionally signed digit strings (whitespace stripped,
as `int` does); anything else fails (ValueError). -/
def pyInt (s : String) : Option Int :=
  let cs := (pyStrip s).toList
  let ds := if cs.head? = some '-' ∨ cs.head? = some '+' then cs.tail else cs
  if ¬ ds.isEmpty ∧ ds.all Char.isDigit then
    some (if cs.head? = some '-' then -(natOfDigits ds : Int) else (natOfDigits ds : Int))
  else Option.none

/-- Python `"-".join l`. -/
def joinDash : List String → String
  | [] => ""
  | [s] => s
  | s :: ss => s ++ "-" ++ joinDash ss

/-- A `datetime.datetime` value as the pipeline uses it (seconds precision is
never populated: `strptime` with minutes, `datetime(y, m, 1)`). -/
structure PyDateTime where
  year : Nat
  month : Nat
  day : Nat
  hour : Nat
  minute : Nat
deriving DecidableEq, Repr

def isLeap (y : Nat) : Bool :=
  (y % 4 = 0 ∧ y % 100 ≠ 0) ∨ y % 400 = 0

def daysInMonth (y m : Nat) : Nat :=
  if m = 2 then (if isLeap y then 29 else 28)
  else if m = 4 ∨ m = 6 ∨ m = 9 ∨ m = 11 then 30
  else 31

/-- Models `datetime.strptime(s, "%Y%m%d%H%M")` on the 12-digit stamps this
dataset uses: four year digits then two digits each for month, day, hour and
minute, with the validity checks `datetime` performs; any other string is a
parse failure (ValueError), handled by the caller as drop-the-row. -/
def strptime12 (s : String) : Option PyDateTime :=
  let cs := s.toList
  if cs.length = 12 ∧ cs.all Char.isDigit then
    let y := natOfDigits (cs.take 4)
    let mo := natOfDigits ((cs.drop 4).take 2)
    let d := natOfDigits ((cs.drop 6).take 2)
    let h := natOfDigits ((cs.drop 8).take 2)
    let mi := natOfDigits ((cs.drop 10).take 2)
    if 1 ≤ y ∧ 1 ≤ mo ∧ mo ≤ 12 ∧ 1 ≤ d ∧ d ≤ daysInMonth y mo ∧ h ≤ 23 ∧ mi ≤ 59 then
      some ⟨y, mo, d, h, mi⟩
    else Option.none
  else Option.none

/-- A Python value as stored in the record dicts handed to the point writer:
a string, a parsed number, a datetime, or `None`. -/
inductive PyVal where
  | str : String → PyVal
  | num : ℚ → PyVal
  | dt : PyDateTime → PyVal
  | null : PyVal
deriving DecidableEq, Repr

/-- Wraps an optional float the way the decoders store it in a dict. -/
def optVal : Option ℚ → PyVal
  | Option.none => PyVal.null
  | some q => PyVal.num q

/-- A record dict, modelled as an association list with unique keys in
insertion order. -/
abbrev Entry := List (String × PyVal)

/-- Embeds `entry.pop(key, None)`: the popped value (or `none` when the key is
absent) together with the remaining dict. -/
def dictPop (d : Entry) (key : String) : Option PyVal × Entry :=
  ((d.find? fun kv => decide (kv.1 = key)).map Prod.snd,
   d.filter fun kv => decide (kv.1 ≠ key))

/-- Python truthiness of an optional value, as used by `if station_id:` and
`if tstamp:` in `write_points_to_influx`. -/
def truthy : Option PyVal → Bool
  | some (PyVal.str s) => !s.isEmpty
  | some (PyVal.num q) => decide (q ≠ 0)
  | some (PyVal.dt _) => true
  | some PyVal.null => false
  | Option.none => false

/-- An InfluxDB point as assembled by `write_points_to_influx`: measurement
name, tag list, optional time, and the field list (every `p.field(k, v)` call,
verbatim, nulls included). -/
structure Point where
  measurement : String
  tags : List (String × PyVal)
  time : Option PyVal
  fields : List (String × PyVal)
deriving DecidableEq, Inhabited, Repr

/-- Modelled from the spec: the external sink client omits a null field rather
than writing it, so the serialized fields of a point are exactly its non-null
fields.  (`write_points_to_influx` itself calls `p.field(k, v)` for every
remaining key, nulls included; the omission happens at serialization.) -/
def Point.lineFields (p : Point) : List (String × PyVal) :=
  p.fields.filter fun kv => decide (kv.2 ≠ PyVal.null)

/-- Python `station_map[station_id]` lookup guarded by `station_id in station_map`. -/
def mapGet (sm : List (String × String)) (k : String) : Option String :=
  (sm.find? fun kv => decide (kv.1 = k)).map Prod.snd

/-- Embeds the per-entry body of the loop in `write_points_to_influx`: pop
`station_id` and `time` out of the dict (mutating it), tag the point with the
station id — and with the station name when the map has a non-empty entry —
set the time, then add every remaining key as a field.  Returns the point and
the mutated dict. -/
def build_point (measurement : String) (station_map : List (String × String))
    (entry : Entry) : Point × Entry :=
  let pop1 := dictPop entry "station_id"
  let pop2 := dictPop pop1.2 "time"
  let nameTag : List (String × PyVal) :=
    match pop1.1 with
    | some (PyVal.str sid) =>
      if !station_map.isEmpty then
        match mapGet station_map sid with
        | some nm => if !nm.isEmpty then [("station_name", PyVal.str nm)] else []
        | Option.none => []
      else []
    | _ => []
  let tags :=
    if truthy pop1.1 then ("station_id", (pop1.1).getD PyVal.null) :: nameTag else []
  ({ measurement := measurement
     tags := tags
     time := if truthy pop2.1 then pop2.1 else Option.none
     fields := pop2.2 }, pop2.2)

/-- Embeds the pure core of `write_points_to_influx`: one point per entry, and
the list of mutated entries (Python mutates the dicts in place, so the caller
keeps the stripped dicts). -/
def write_points_to_influx (measurement : String) (station_map : List (String × String))
    (data_list : List Entry) : List Point × List Entry :=
  ((data_list.map fun e => build_point measurement station_map e).map Prod.fst,
   (data_list.map fun e => build_point measurement station_map e).map Prod.snd)

/-- The decoded form of one multi-annual means line: the dict built by
`parse_multi_annual_means`, whose keys are `station_id`, `reference_period`,
the twelve month names `Jan` .. `Dec` (here `months`, in calendar order,
non-optional floats exactly as in the source) and the optional `Year`. -/
structure MultiAnnualRecord where
  station_id : String
  reference_period : String
  months : List ℚ
  year : Option ℚ
deriving DecidableEq, Repr

/-- Column `i` of a split line, comma-substituted and parsed with `float`;
`none` on a missing column (IndexError) or parse failure (ValueError). -/
def maFloat (ps : List String) (i : Nat) : Option ℚ :=
  (ps.get? i).bind fun t => pyFloat (substComma t)

/-- The `n` successive float conversions `float(parts[i].replace(",", "."))`,
`float(parts[i+1]...)`, ... of the source, in order; the first missing column
or failed conversion fails the whole block, as the shared `try` does. -/
def maFloatsFrom (ps : List String) : Nat → Nat → Option (List ℚ)
  | _, 0 => some []
  | i, n + 1 =>
    match maFloat ps i, maFloatsFrom ps (i + 1) n with
    | some v, some rest => some (v :: rest)
    | _, _ => Option.none

/-- Embeds the `try` block of `parse_multi_annual_means`: positional reads
from the split line (station id, reference period, the twelve month columns
3..14); a missing column or a failed `float` conversion drops the line (warn
and continue), and an empty 16th column makes the annual value `None` rather
than an error. -/
def parseMAParts (ps : List String) : Option MultiAnnualRecord :=
  match ps.get? 0, ps.get? 1, maFloatsFrom ps 3 12, ps.get? 15 with
  | some sid, some ref, some ms, some p15 =>
    match (if p15.isEmpty then some Option.none else (pyFloat (substComma p15)).map some) with
    | some year => some ⟨sid, ref, ms, year⟩
    | Option.none => Option.none
  | _, _, _, _ => Option.none

/-- One line of `parse_multi_annual_means`: strip, skip blanks and the header
line, split on `;`, strip every column, decode positionally. -/
def parseMALine (line : String) : Option MultiAnnualRecord :=
  let l := pyStrip line
  if l.isEmpty ∨ pyStartswith l "Stations_id" then Option.none
  else parseMAParts ((splitChar ';' l).map pyStrip)

/-- Embeds `parse_multi_annual_means`. -/
def parse_multi_annual_means (content : String) : List MultiAnnualRecord :=
  (splitChar '\n' content).filterMap parseMALine

/-- Embeds `csv.reader(content.splitlines(), delimiter=";")` for the unquoted
rows of this dataset: rows are lines split on `;`, an empty line giving the
empty row. -/
def csvRows (content : String) : List (List String) :=
  (splitChar '\n' content).map fun line => if line.isEmpty then [] else splitChar ';' line

/-- Embeds `float(tok) if tok != "-999" else None` inside the row `try`:
`some none` is the `-999` missing sentinel, `some (some v)` a parsed value,
and `none` a ValueError that drops the whole row. -/
def sentinelFloat (tok : String) : Option (Option ℚ) :=
  if tok = "-999" then some Option.none else (pyFloat tok).map some

/-- Embeds the body of the row loop of `parse_10min_temp`: skip empty rows and
the header, read columns 0, 1, 4 and 6, parse the timestamp, resolve both
values against the `-999` sentinel, and drop the row when both are missing. -/
def parse10minTempRow (row : List String) : Option Entry :=
  match row with
  | [] => Option.none
  | c0 :: _ =>
    if pyStartswith c0 "STATIONS_ID" then Option.none
    else
      match row.get? 1, row.get? 4, row.get? 6 with
      | some c1, some c4, some c6 =>
        match strptime12 (pyStrip c1) with
        | some dtv =>
          match sentinelFloat (pyStrip c4), sentinelFloat (pyStrip c6) with
          | some temp_val, some rh_val =>
            if temp_val = Option.none ∧ rh_val = Option.none then Option.none
            else some [("station_id", PyVal.str (pyStrip c0)),
                       ("time", PyVal.dt dtv),
                       ("temperature_10min", optVal temp_val),
                       ("humidity_10min", optVal rh_val)]
          | _, _ => Option.none
        | Option.none => Option.none
      | _, _, _ => Option.none

/-- `parse_10min_temp` on already-split rows. -/
def parse_10min_temp_rows (rows : List (List String)) : List Entry :=
  rows.filterMap parse10minTempRow

/-- Embeds `parse_10min_temp`. -/
def parse_10min_temp (content : String) : List Entry :=
  parse_10min_temp_rows (csvRows content)

/-- Embeds the body of the row loop of `parse_10min_precip`: like the
temperature decoder but with the single value at column 4, and a row whose
precipitation value is missing is dropped entirely. -/
def parse10minPrecipRow (row : List String) : Option Entry :=
  match row with
  | [] => Option.none
  | c0 :: _ =>
    if pyStartswith c0 "STATIONS_ID" then Option.none
    else
      match row.get? 1, row.get? 4 with
      | some c1, some c4 =>
        match strptime12 (pyStrip c1) with
        | some dtv =>
          match sentinelFloat (pyStrip c4) with
          | some (some v) =>
            some [("station_id", PyVal.str (pyStrip c0)),
                  ("time", PyVal.dt dtv),
                  ("precip_10min", PyVal.num v)]
          | some Option.none => Option.none
          | Option.none => Option.none
        | Option.none => Option.none
      | _, _ => Option.none

/-- Embeds `parse_10min_precip`. -/
def parse_10min_precip (content : String) : List Entry :=
  (csvRows content).filterMap parse10minPrecipRow

def BASE_URL : String :=
  "https://opendata.dwd.de/climate_environment/CDC/observations_germany/climate"

def MULTI_ANNUAL_MEANS_URL : String := BASE_URL ++ "/multi_annual"

/-- Embeds the `TEN_MINUTE_DATA_URL` dict (keyed by the two data types). -/
def TEN_MINUTE_DATA_URL (data_type : String) : String :=
  if data_type = "precipitation" then BASE_URL ++ "/10_minutes/precipitation"
  else BASE_URL ++ "/10_minutes/air_temperature"

def HISTORICAL_URLS (data_type : String) : String := TEN_MINUTE_DATA_URL data_type ++ "/historical/"

def RECENT_URLS (data_type : String) : String := TEN_MINUTE_DATA_URL data_type ++ "/recent/"

def NOW_URLS (data_type : String) : String := TEN_MINUTE_DATA_URL data_type ++ "/now/"

def PERIOD_STRINGS : List String :=
  ["1961-1990", "1971-2000", "1981-2010", "1991-2020"]

/-- Embeds `MULTI_ANNUAL_TEMPLATES[data_type].format(short_period=..., period=...)`
together with the `short_period` computation in `fetch_multi_annual_means`. -/
def maUrl (data_type period : String) : String :=
  let short := joinDash ((splitChar '-' period).map fun y => String.mk (y.toList.drop 2))
  MULTI_ANNUAL_MEANS_URL ++ "/mean_" ++ short ++ "/" ++
    (if data_type = "precipitation" then "Niederschlag_" else "Temperatur_") ++
    period ++ ".txt"

/-- The `month_values` dict of `fetch_multi_annual_means`: the twelve literal
entries `1: row["Jan"]` .. `12: row["Dec"]`, i.e. month numbers 1..12 paired
with the decoded month values in order (a decoded record always has exactly
twelve month values). -/
def monthValues (r : MultiAnnualRecord) : List (Nat × ℚ) :=
  (List.range 12).map fun j => (j + 1, r.months.getD j 0)

/-- Embeds the truthiness test `if station_ids and station_id not in station_ids:`
(`station_ids` is `None` when the caller does not pass it, and `None` and the
empty list are both falsy). -/
def rosterFiltered (station_ids : Option (List String)) (sid : String) : Bool :=
  match station_ids with
  | Option.none => false
  | some ids => !ids.isEmpty && decide (sid ∉ ids)

/-- The validation `datetime.datetime(y, m, 1)` performs on the synthesizer's
arguments: the month numbers 1..12 and day 1 it is given are always valid, but
`datetime` raises `ValueError` for a year outside 1..9999. -/
def datetimeYearOk (y : Int) : Bool :=
  decide (1 ≤ y ∧ y ≤ 9999)

/-- Embeds the per-row body of the loop in `fetch_multi_annual_means`: the
roster filter, the start-year parse, and the twelve-point fan-out building one
`point_dict` per month with the synthetic instant `datetime(start_year, m, 1)`.
Two aborts are embedded as `Except.error`.  First, the
`except ValueError | TypeError:` clause of the source is not a valid exception
specification: evaluating `ValueError | TypeError` when `int()` has raised
inside the `try` itself raises `TypeError` (on every released CPython), which
nothing catches — so an unparseable reference period aborts the whole call
instead of being skipped.  Second, the `datetime(start_year, month_num, 1)`
call sits outside that `try`: a start year outside datetime's 1..9999 range
raises an uncaught `ValueError` at the first month, aborting the call before
any point of the row is produced. -/
def processMARow (station_ids : Option (List String)) (r : MultiAnnualRecord) :
    Except String (List Entry) :=
  if rosterFiltered station_ids r.station_id then Except.ok []
  else
    match pyInt ((splitChar '-' r.reference_period).headD "") with
    | some y =>
      if datetimeYearOk y then
        Except.ok ((monthValues r).map fun mv =>
          [("station_id", PyVal.str r.station_id),
           ("time", PyVal.dt ⟨y.toNat, mv.1, 1, 0, 0⟩),
           ("reference_period", PyVal.str r.reference_period),
           ("value", PyVal.num mv.2)])
      else Except.error "ValueError"
    | Option.none => Except.error "TypeError"

/-- The row loop of `fetch_multi_annual_means` over the decoded records of one
file, collecting `data_points` (or aborting, see `processMARow`). -/
def processMARows (station_ids : Option (List String)) :
    List MultiAnnualRecord → Except String (List Entry)
  | [] => Except.ok []
  | r :: rs =>
    match processMARow station_ids r with
    | Except.error e => Except.error e
    | Except.ok ps =>
      match processMARows station_ids rs with
      | Except.error e => Except.error e
      | Except.ok rest => Except.ok (ps ++ rest)

/-- One iteration of the period loop of `fetch_multi_annual_means`: download
the period file (`download_file` failures are not caught here and propagate),
parse it, run the row loop, and build the batch of points that is written for
this reference period. -/
def fetchMAPeriod (fetchText : String → Except String String) (data_type : String)
    (station_map : List (String × String)) (station_ids : Option (List String))
    (period : String) : Except String (List Point) :=
  match fetchText (maUrl data_type period) with
  | Except.error e => Except.error e
  | Except.ok content =>
    match processMARows station_ids (parse_multi_annual_means content) with
    | Except.error e => Except.error e
    | Except.ok entries =>
      Except.ok (write_points_to_influx ("multi_annual_" ++ data_type) station_map entries).1

/-- The period loop of `fetch_multi_annual_means`: each period in order, the
first uncaught exception aborting the remaining iterations. -/
def mapPeriods (f : String → Except String (List Point)) :
    List String → Except String (List (List Point))
  | [] => Except.ok []
  | p :: ps =>
    match f p with
    | Except.error e => Except.error e
    | Except.ok b =>
      match mapPeriods f ps with
      | Except.error e => Except.error e
      | Except.ok rest => Except.ok (b :: rest)

/-- Embeds `fetch_multi_annual_means`: the four fixed reference periods in
order, each fetched, decoded, synthesized and written; any uncaught exception
(fetch failure, broken reference-period handler) aborts the remaining
periods. -/
def fetch_multi_annual_means (fetchText : String → Except String String)
    (data_type : String) (station_map : List (String × String))
    (station_ids : Option (List String)) : Except String (List (List Point)) :=
  mapPeriods (fetchMAPeriod fetchText data_type station_map station_ids) PERIOD_STRINGS

/-- Embeds the `init`-mode calls in `main`, which pass `station_map` but omit
the `station_ids` argument, leaving it at its default `None`. -/
def initModeMultiAnnual (fetchText : String → Except String String)
    (data_type : String) (station_map : List (String × String)) :
    Except String (List (List Point)) :=
  fetch_multi_annual_means fetchText data_type station_map Option.none

/-- The filename filter of `list_dwd_files` over the anchor targets of the
index page. -/
def dwdFileFilter (pre suf : String) (hrefs : List String) : List String :=
  hrefs.filter fun h => pyStartswith h pre && pyEndswith h suf

/-- Embeds `list_dwd_files`: download the index page (failures are not caught
and propagate), scan it for anchors (external collaborator `scrape`), and keep the
filenames matching the given prefix and suffix. -/
def list_dwd_files (fetchText : String → Except String String)
    (scrape : String → List String) (base_url pre suf : String) :
    Except String (List String) :=
  (fetchText base_url).map fun html => dwdFileFilter pre suf (scrape html)

/-- The type-discriminating filename prefix of `fetch_historical_10min_data`. -/
def typePref (data_type : String) : String :=
  "10minutenwerte_" ++ (if data_type = "precipitation" then "nieder" else "TU") ++ "_"

/-- Embeds the per-station filter of `fetch_historical_10min_data`: filenames
starting with the type prefix followed by the zero-padded station id and an
underscore. -/
def historical_station_files (data_type station_id : String)
    (all_filenames : List String) : List String :=
  all_filenames.filter fun fn =>
    pyStartswith fn (typePref data_type ++ zfill station_id 5 ++ "_")

/-- Embeds `fetch_and_write_zip`: download the archive — this is the one place
a download failure is caught (logged, the archive skipped, an empty batch
returned) — then decode every `.txt` member with the decoder matching the data
type and build the points written for it.  `fetchZip` combines the external
fetcher and the external zip container reader. -/
def fetch_and_write_zip (fetchZip : String → Except String (List (String × String)))
    (data_type : String) (station_map : List (String × String)) (full_url : String) :
    List Point :=
  match fetchZip full_url with
  | Except.error _ => []
  | Except.ok members =>
    (members.filter fun m => pyEndswith m.1 ".txt").map (fun m =>
      if data_type = "precipitation" then
        (write_points_to_influx "precip_10min" station_map (parse_10min_precip m.2)).1
      else
        (write_points_to_influx "temp_10min" station_map (parse_10min_temp m.2)).1) |>.flatten

/-- Embeds the filename template of `fetch_recent_or_now_10min_data`: the
station id is used verbatim (no zero padding). -/
def recent_or_now_zipname (data_type station_id suf : String) : String :=
  "10minutenwerte_" ++ (if data_type = "precipitation" then "nieder" else "TU") ++
    "_" ++ station_id ++ suf

/-- Embeds `fetch_recent_or_now_10min_data`: one archive per configured
station, addressed by the verbatim station id; each archive is fetched and
written independently (`fetch_and_write_zip` swallows fetch failures). -/
def fetch_recent_or_now_10min_data (fetchZip : String → Except String (List (String × String)))
    (station_ids : List String) (data_type period : String)
    (station_map : List (String × String)) : List (List Point) :=
  let base_url := if period = "recent" then RECENT_URLS data_type else NOW_URLS data_type
  let suf := if period = "recent" then "_akt.zip" else "_now.zip"
  station_ids.map fun sid =>
    fetch_and_write_zip fetchZip data_type station_map
      (base_url ++ recent_or_now_zipname data_type sid suf)

/-- Embeds `fetch_historical_10min_data`: list the historical directory (a
listing failure propagates and aborts), then for each configured station fetch
and write every filename matching its padded prefix. -/
def fetch_historical_10min_data (fetchText : String → Except String String)
    (scrape : String → List String)
    (fetchZip : String → Except String (List (String × String)))
    (station_ids : List String) (data_type : String)
    (station_map : List (String × String)) :
    Except String (List (List (List Point))) :=
  match list_dwd_files fetchText scrape (HISTORICAL_URLS data_type)
      (typePref data_type) "_hist.zip" with
  | Except.error e => Except.error e
  | Except.ok all =>
    Except.ok (station_ids.map fun sid =>
      (historical_station_files data_type sid all).map fun fn =>
        fetch_and_write_zip fetchZip data_type station_map (HISTORICAL_URLS data_type ++ fn))

/-- A well-formed multi-annual means file whose single record belongs to a
station that is not in the configured roster `["00091"]`. -/
def maSampleUnrostered : String :=
  "99999;1961-1990;q;1;2;3;4;5;6;7;8;9;10;11;12;"

/-- A multi-annual means file whose first record has a reference period that
does not yield an integer start year, followed by a well-formed record. -/
def maSampleBadRef : String :=
  "00091;abcd-1990;q;1;2;3;4;5;6;7;8;9;10;11;12;\n00091;1961-1990;q;1;2;3;4;5;6;7;8;9;10;11;12;"

/-!
### Helper lemmas
-/

theorem pyStartswith_iff (s p : String) :
    pyStartswith s p = true ↔ s.toList.take p.toList.length = p.toList := by
  simp [pyStartswith]

theorem pyStartswith_append_left (s a b : String)
    (h : pyStartswith s (a ++ b) = true) : pyStartswith s a = true := by
  rw [pyStartswith_iff] at h ⊢
  have h2 := congrArg (List.take a.toList.length) h
  rw [List.take_take] at h2
  have hmin : min a.toList.length (a ++ b).toList.length = a.toList.length := by
    apply Nat.min_eq_left
    rw [show (a ++ b).toList = a.toList ++ b.toList from rfl, List.length_append]
    omega
  rw [hmin] at h2
  rw [h2, show (a ++ b).toList = a.toList ++ b.toList from rfl]
  exact List.take_left a.toList b.toList

theorem pyStartswith_append_self (a b : String) : pyStartswith (a ++ b) a = true := by
  rw [pyStartswith_iff, show (a ++ b).toList = a.toList ++ b.toList from rfl]
  exact List.take_left a.toList b.toList

theorem zfillList_length (w : Nat) (cs : List Char) (h : cs.length ≤ w) :
    (zfillList w cs).length = w := by
  cases cs with
  | nil => simp [zfillList]
  | cons c rest =>
    by_cases hc : c = '-' ∨ c = '+' <;>
      · simp only [List.length_cons] at h
        simp [zfillList, hc]
        omega

theorem find?_filter_none (l : Entry) (p q : String × PyVal → Bool)
    (h : l.find? p = Option.none) : (l.filter q).find? p = Option.none := by
  rw [List.find?_eq_none] at h ⊢
  intro x hx
  exact h x (List.mem_filter.mp hx).1

theorem find?_key_filter_ne (d : Entry) (k : String) :
    ((d.filter fun kv => decide (kv.1 ≠ k)).find? fun kv => decide (kv.1 = k)) =
      Option.none := by
  rw [List.find?_eq_none]
  intro x hx
  rw [List.mem_filter] at hx
  simpa using hx.2

/-- A dict without `station_id` and `time` keys yields a point with no tags
and no time. -/
theorem build_point_no_keys (m2 : String) (sm2 : List (String × String)) (e : Entry)
    (hsid : (e.find? fun kv => decide (kv.1 = "station_id")) = Option.none)
    (htime : (e.find? fun kv => decide (kv.1 = "time")) = Option.none) :
    (build_point m2 sm2 e).1.tags = [] ∧ (build_point m2 sm2 e).1.time = Option.none := by
  have htime2 : ((e.filter fun kv => decide (kv.1 ≠ "station_id")).find?
      fun kv => decide (kv.1 = "time")) = Option.none :=
    find?_filter_none _ _ _ htime
  have h1 : (dictPop e "station_id").1 = Option.none := by
    simp only [dictPop]
    rw [hsid]
    rfl
  have h2 : (dictPop (dictPop e "station_id").2 "time").1 = Option.none := by
    simp only [dictPop]
    rw [htime2]
    rfl
  constructor
  · simp only [build_point]
    rw [h1]
    rfl
  · simp only [build_point]
    rw [h2]
    rfl

/-!
### Claims
-/

/-- C6: in historical mode, a listed filename is selected for a configured
station if and only if it starts with the type prefix
(`10minutenwerte_nieder_` for precipitation, `10minutenwerte_TU_` for
temperature) followed by the station id zero-padded to 5 characters and an
underscore, and ends with `_hist.zip`; on the example listing, for station
`"91"` and precipitation exactly the nieder-prefixed filename is selected. -/
theorem spec_c6_historical_matching :
    (∀ (dty : String) (hrefs : List String) (sid fn : String),
      fn ∈ historical_station_files dty sid
          (dwdFileFilter (typePref dty) "_hist.zip" hrefs) ↔
        fn ∈ hrefs ∧ pyStartswith fn (typePref dty ++ zfill sid 5 ++ "_") = true ∧
          pyEndswith fn "_hist.zip" = true)
    ∧ historical_station_files "precipitation" "91"
        (dwdFileFilter (typePref "precipitation") "_hist.zip"
          ["10minutenwerte_nieder_00091_19950101_20201231_hist.zip",
           "10minutenwerte_TU_00091_19950101_20201231_hist.zip"]) =
        ["10minutenwerte_nieder_00091_19950101_20201231_hist.zip"] := by
  constructor
  · intro dty hrefs sid fn
    unfold historical_station_files dwdFileFilter
    simp only [List.mem_filter, Bool.and_eq_true]
    constructor
    · rintro ⟨⟨hmem, _, hsuf⟩, hsp⟩
      exact ⟨hmem, hsp, hsuf⟩
    · rintro ⟨hmem, hsp, hsuf⟩
      have hpre : pyStartswith fn (typePref dty) = true := by
        rw [String.append_assoc] at hsp
        exact pyStartswith_append_left fn (typePref dty) (zfill sid 5 ++ "_") hsp
      exact ⟨⟨hmem, hpre, hsuf⟩, hsp⟩
  · decide

/-- C10: recent/now archive filenames are built from the configured station id
verbatim (no zero padding) while historical matching pads the id to 5
characters with `zfill`, so for a roster id shorter than 5 characters the two
modes address different padded identifiers. -/
theorem spec_c10_recent_verbatim_historical_padded (sid rest : String) :
    recent_or_now_zipname "precipitation" sid "_akt.zip" =
        "10minutenwerte_nieder_" ++ sid ++ "_akt.zip"
    ∧ recent_or_now_zipname "temperature" sid "_now.zip" =
        "10minutenwerte_TU_" ++ sid ++ "_now.zip"
    ∧ historical_station_files "precipitation" sid
        [typePref "precipitation" ++ zfill sid 5 ++ "_" ++ rest] =
        [typePref "precipitation" ++ zfill sid 5 ++ "_" ++ rest]
    ∧ (sid.toList.length < 5 → zfill sid 5 ≠ sid) := by
  refine ⟨?_, ?_, ?_, ?_⟩
  · rw [show ("10minutenwerte_nieder_" : String) = "10minutenwerte_" ++ "nieder" ++ "_"
      from by decide]
    rfl
  · rw [show ("10minutenwerte_TU_" : String) = "10minutenwerte_" ++ "TU" ++ "_"
      from by decide]
    rfl
  · have h := pyStartswith_append_self (typePref "precipitation" ++ zfill sid 5 ++ "_") rest
    simp only [historical_station_files, List.filter_cons, List.filter_nil]
    simp [h]
  · intro hlen hcontra
    have h5 : (zfill sid 5).toList.length = 5 :=
      zfillList_length 5 sid.toList (Nat.le_of_lt hlen)
    rw [hcontra] at h5
    omega

/-- C10 witness: at station id `"91"` the recent filename embeds `"91"`
verbatim while the 5-character padding differs from the id. -/
theorem spec_c10_witness :
    recent_or_now_zipname "precipitation" "91" "_akt.zip" =
        "10minutenwerte_nieder_" ++ "91" ++ "_akt.zip"
    ∧ zfill "91" 5 ≠ "91" :=
  ⟨(spec_c10_recent_verbatim_historical_padded "91" "r").1,
   (spec_c10_recent_verbatim_historical_padded "91" "r").2.2.2 (by decide)⟩

/-- C3: on the point built from any record, a null-valued attribute yields no
serialized field while every non-null attribute remaining after `station_id`
and `time` are popped becomes a field; in particular a temperature record with
humidity missing yields a point whose only serialized field is the
temperature. -/
theorem spec_c3_null_fields_omitted :
    (∀ (m : String) (sm : List (String × String)) (entry : Entry) (k : String) (v : PyVal),
      (k, v) ∈ (build_point m sm entry).1.lineFields ↔
        (k, v) ∈ (dictPop (dictPop entry "station_id").2 "time").2 ∧ v ≠ PyVal.null)
    ∧ (build_point "temp_10min" []
        [("station_id", PyVal.str "00091"), ("time", PyVal.dt ⟨2020, 1, 1, 0, 0⟩),
         ("temperature_10min", PyVal.num (mkRat 43 2)),
         ("humidity_10min", PyVal.null)]).1.lineFields =
        [("temperature_10min", PyVal.num (mkRat 43 2))] := by
  constructor
  · intro m sm entry k v
    have hf : (build_point m sm entry).1.fields =
        (dictPop (dictPop entry "station_id").2 "time").2 := rfl
    rw [Point.lineFields, hf, List.mem_filter]
    simp
  · decide

/-- C9: the point builder pops `station_id` and `time` out of every record
dict it is given, so the mutated records no longer contain either key, and a
second invocation on the already-processed records builds points with no tags
and no timestamp. -/
theorem spec_c9_point_builder_mutates (m m2 : String)
    (sm sm2 : List (String × String)) (data_list : List Entry) :
    ((write_points_to_influx m sm data_list).2.all fun e =>
        decide ((e.find? fun kv => decide (kv.1 = "station_id")) = Option.none) &&
        decide ((e.find? fun kv => decide (kv.1 = "time")) = Option.none)) = true
    ∧ ((write_points_to_influx m2 sm2 (write_points_to_influx m sm data_list).2).1.all
        fun p => decide (p.tags = []) && decide (p.time = Option.none)) = true := by
  constructor
  · rw [List.all_eq_true]
    intro e he
    simp only [write_points_to_influx, List.map_map, List.mem_map] at he
    obtain ⟨e0, _, he0⟩ := he
    have he2 : e = ((e0.filter fun kv => decide (kv.1 ≠ "station_id")).filter
        fun kv => decide (kv.1 ≠ "time")) := by
      rw [← he0]; rfl
    subst he2
    simp only [Bool.and_eq_true, decide_eq_true_eq]
    constructor
    · have h1 := find?_key_filter_ne e0 "station_id"
      exact find?_filter_none _ _ _ h1
    · exact find?_key_filter_ne _ "time"
  · rw [List.all_eq_true]
    intro p hp
    simp only [write_points_to_influx, List.map_map, List.mem_map,
      Function.comp_apply] at hp
    obtain ⟨e0, _, hpe⟩ := hp
    have hproc : (build_point m sm e0).2 =
        ((e0.filter fun kv => decide (kv.1 ≠ "station_id")).filter
          fun kv => decide (kv.1 ≠ "time")) := rfl
    have hsid : ((build_point m sm e0).2.find? fun kv =>
        decide (kv.1 = "station_id")) = Option.none := by
      rw [hproc]
      exact find?_filter_none _ _ _ (find?_key_filter_ne e0 "station_id")
    have htime : ((build_point m sm e0).2.find? fun kv =>
        decide (kv.1 = "time")) = Option.none := by
      rw [hproc]
      exact find?_key_filter_ne _ "time"
    have h := build_point_no_keys m2 sm2 ((build_point m sm e0).2) hsid htime
    rw [← hpe]
    simp only [Bool.and_eq_true, decide_eq_true_eq]
    exact ⟨h.1, h.2⟩

/-- C1 (code bug): in init mode `main` omits the `station_ids` argument of
`fetch_multi_annual_means`, so the roster filter is skipped and a decoded
record for station `"99999"` — not in the roster `["00091"]` — still produces
twelve points per reference period, tagged with the unrostered station; the
filter works only on the unused explicit-`station_ids` path. -/
theorem spec_c1_init_mode_skips_roster_filter :
    ("99999" ∉ (["00091"] : List String))
    ∧ ((initModeMultiAnnual (fun _ => Except.ok maSampleUnrostered) "precipitation"
        [("00091", "")]).toOption.map fun bs => bs.map List.length) =
      some [12, 12, 12, 12]
    ∧ ((initModeMultiAnnual (fun _ => Except.ok maSampleUnrostered) "precipitation"
        [("00091", "")]).toOption.getD []).all (fun b => b.all fun p =>
          decide (p.tags = [("station_id", PyVal.str "99999")])) = true
    ∧ ((fetch_multi_annual_means (fun _ => Except.ok maSampleUnrostered) "precipitation"
        [("00091", "")] (some ["00091"])).toOption.map fun bs => bs.map List.length) =
      some [0, 0, 0, 0] := by
  decide

/-- C2 (code bug): a record whose reference period yields no integer start
year (`"abcd-1990"`) is decoded fine, but the broken
`except ValueError | TypeError:` handler turns the `int()` failure into an
uncaught `TypeError`, aborting the whole multi-annual fetch instead of
dropping the record and continuing with the remaining well-formed record. -/
theorem spec_c2_bad_reference_period_aborts :
    (parse_multi_annual_means maSampleBadRef).length = 2
    ∧ fetch_multi_annual_means (fun _ => Except.ok maSampleBadRef) "precipitation" []
        Option.none = Except.error "TypeError" := by
  exact ⟨by decide, by rfl⟩

theorem maFloatsFrom_length (ps : List String) (n : Nat) :
    ∀ (i : Nat) (vs : List ℚ), maFloatsFrom ps i n = some vs → vs.length = n := by
  induction n with
  | zero =>
    intro i vs h
    simp only [maFloatsFrom, Option.some.injEq] at h
    subst h
    rfl
  | succ n ih =>
    intro i vs h
    rw [maFloatsFrom] at h
    split at h
    · rename_i v rest _ hrest
      simp only [Option.some.injEq] at h
      subst h
      simp [ih (i + 1) rest hrest]
    · exact absurd h (by simp)

theorem maFloatsFrom_get? (ps : List String) (n : Nat) :
    ∀ (i : Nat) (vs : List ℚ), maFloatsFrom ps i n = some vs →
      ∀ j, j < n → vs.get? j = maFloat ps (i + j) := by
  induction n with
  | zero =>
    intro i vs _ j hj
    omega
  | succ n ih =>
    intro i vs h j hj
    rw [maFloatsFrom] at h
    split at h
    · rename_i v rest hv hrest
      simp only [Option.some.injEq] at h
      subst h
      cases j with
      | zero => simpa using hv.symm
      | succ j2 =>
        have h2 := ih (i + 1) rest hrest j2 (by omega)
        have hidx : i + (j2 + 1) = i + 1 + j2 := by omega
        simpa [hidx] using h2
    · exact absurd h (by simp)

theorem parseMAParts_fields (ps : List String) (r : MultiAnnualRecord)
    (h : parseMAParts ps = some r) :
    ps.get? 0 = some r.station_id ∧ ps.get? 1 = some r.reference_period ∧
      maFloatsFrom ps 3 12 = some r.months := by
  rw [parseMAParts] at h
  split at h
  · rename_i sid ref ms p15 hsid href hms _
    split at h
    · simp only [Option.some.injEq] at h
      subst h
      exact ⟨hsid, href, hms⟩
    · exact absurd h (by simp)
  · exact absurd h (by simp)

/-- Every record produced by the multi-annual decoder carries exactly twelve
month values. -/
theorem parse_ma_months_length (content : String) (r : MultiAnnualRecord)
    (h : r ∈ parse_multi_annual_means content) : r.months.length = 12 := by
  rw [parse_multi_annual_means, List.mem_filterMap] at h
  obtain ⟨line, _, hline⟩ := h
  simp only [parseMALine] at hline
  split at hline
  · exact absurd hline (by simp)
  · exact maFloatsFrom_length _ 12 3 r.months (parseMAParts_fields _ r hline).2.2

/-- C4 counterexample: the multi-annual decoder has no `-999` sentinel check,
so a January token `-999` decodes to the numeric value `-999.0` in the record
rather than to Missing. -/
theorem spec_c4_counterexample :
    (parse_multi_annual_means "00091;1961-1990;q;-999;2;3;4;5;6;7;8;9;10;11;12;").map
      (fun r => r.months.getD 0 0) = [(-999 : ℚ)]
    ∧ (parse_multi_annual_means
        "00091;1961-1990;q;-999;2;3;4;5;6;7;8;9;10;11;12;").length = 1 := by
  decide

/-- C4 amended: in the multi-annual decoder a monthly token `-999` (month `j`,
column `3 + j`) resolves to the numeric value `-999.0` in the decoded record —
monthly means are non-nullable there, and the `-999` Missing resolution exists
only in the ten-minute decoders. -/
theorem spec_c4_monthly_sentinel_is_numeric (ps : List String) (r : MultiAnnualRecord)
    (h : parseMAParts ps = some r) (j : Nat) (hj : j < 12)
    (htok : ps.get? (3 + j) = some "-999") :
    r.months.get? j = some (-999 : ℚ) := by
  have hm := (parseMAParts_fields ps r h).2.2
  rw [maFloatsFrom_get? ps 12 3 r.months hm j hj, maFloat, htok]
  decide

/-- C4 witness: a line whose January token is `-999` parses to a record whose
January value is the numeric `-999`. -/
theorem spec_c4_witness :
    parseMAParts ["00091", "1961-1990", "q", "-999", "2", "3", "4", "5", "6", "7", "8",
        "9", "10", "11", "12", ""] =
      some ⟨"00091", "1961-1990", [-999, 2, 3, 4, 5, 6, 7, 8, 9, 10, 11, 12], Option.none⟩
    ∧ (0 : Nat) < 12
    ∧ (⟨"00091", "1961-1990", [-999, 2, 3, 4, 5, 6, 7, 8, 9, 10, 11, 12], Option.none⟩ :
        MultiAnnualRecord).months.get? 0 = some (-999 : ℚ) :=
  ⟨by decide, by decide,
   spec_c4_monthly_sentinel_is_numeric
     ["00091", "1961-1990", "q", "-999", "2", "3", "4", "5", "6", "7", "8", "9", "10",
      "11", "12", ""]
     ⟨"00091", "1961-1990", [-999, 2, 3, 4, 5, 6, 7, 8, 9, 10, 11, 12], Option.none⟩
     (by decide) 0 (by decide) (by decide)⟩

/-- C8: a decoded multi-annual record that passes the roster filter and whose
reference period yields an integer start year that `datetime` accepts (the
claim's "valid reference period": years 1..9999) fans out into exactly twelve
point dicts, one per month, with the synthetic instant being the first day of
`(start_year, month)`; a decodable record whose start year parses but falls
outside that range instead aborts the row loop with the uncaught `ValueError`
from `datetime`; and on the spec example, reference period `1961-1990` with
January token `42,5` yields a written point with instant 1961-01-01 and field
value 42.5 (comma converted to dot). -/
theorem spec_c8_synthesizer_twelve_points :
    (∀ (content : String) (r : MultiAnnualRecord) (ids : Option (List String)) (y : Int),
      r ∈ parse_multi_annual_means content →
      rosterFiltered ids r.station_id = false →
      pyInt ((splitChar '-' r.reference_period).headD "") = some y →
      datetimeYearOk y = true →
      processMARow ids r = Except.ok ((List.range 12).map fun j =>
        [("station_id", PyVal.str r.station_id),
         ("time", PyVal.dt ⟨y.toNat, j + 1, 1, 0, 0⟩),
         ("reference_period", PyVal.str r.reference_period),
         ("value", PyVal.num (r.months.getD j 0))]) ∧ r.months.length = 12)
    ∧ processMARows Option.none (parse_multi_annual_means
        "91;0000-1990;src;1;2;3;4;5;6;7;8;9;10;11;12;") = Except.error "ValueError"
    ∧ ((write_points_to_influx "multi_annual_precipitation" []
          ((processMARows Option.none (parse_multi_annual_means
            "91;1961-1990;src;42,5;2;3;4;5;6;7;8;9;10;11;12;")).toOption.getD [])).1.headD
          default).time = some (PyVal.dt ⟨1961, 1, 1, 0, 0⟩)
    ∧ ((write_points_to_influx "multi_annual_precipitation" []
          ((processMARows Option.none (parse_multi_annual_means
            "91;1961-1990;src;42,5;2;3;4;5;6;7;8;9;10;11;12;")).toOption.getD [])).1.headD
          default).lineFields =
        [("reference_period", PyVal.str "1961-1990"), ("value", PyVal.num (mkRat 85 2))] := by
  refine ⟨?_, by rfl, by decide, by decide⟩
  intro content r ids y hr hfil hy hyok
  refine ⟨?_, parse_ma_months_length content r hr⟩
  simp only [processMARow, hfil, Bool.false_eq_true, if_false, hy, hyok, if_true]
  simp [monthValues, List.map_map]

/-- C8 witness: the sample record decoded from the spec example satisfies the
hypotheses — in particular its start year 1961 lies in the range `datetime`
accepts — and fans out into the twelve January-to-December points for 1961. -/
theorem spec_c8_witness :
    (⟨"91", "1961-1990", [mkRat 85 2, 2, 3, 4, 5, 6, 7, 8, 9, 10, 11, 12], Option.none⟩ :
        MultiAnnualRecord) ∈
      parse_multi_annual_means "91;1961-1990;src;42,5;2;3;4;5;6;7;8;9;10;11;12;"
    ∧ rosterFiltered Option.none "91" = false
    ∧ pyInt ((splitChar '-' "1961-1990").headD "") = some 1961
    ∧ datetimeYearOk 1961 = true
    ∧ processMARow Option.none
        ⟨"91", "1961-1990", [mkRat 85 2, 2, 3, 4, 5, 6, 7, 8, 9, 10, 11, 12], Option.none⟩ =
      Except.ok ((List.range 12).map fun j =>
        [("station_id", PyVal.str "91"),
         ("time", PyVal.dt ⟨Int.toNat 1961, j + 1, 1, 0, 0⟩),
         ("reference_period", PyVal.str "1961-1990"),
         ("value", PyVal.num (([mkRat 85 2, 2, 3, 4, 5, 6, 7, 8, 9, 10, 11, 12] :
            List ℚ).getD j 0))]) :=
  ⟨by decide, by decide, by decide, by decide,
   (spec_c8_synthesizer_twelve_points.1
     "91;1961-1990;src;42,5;2;3;4;5;6;7;8;9;10;11;12;"
     ⟨"91", "1961-1990", [mkRat 85 2, 2, 3, 4, 5, 6, 7, 8, 9, 10, 11, 12], Option.none⟩
     Option.none 1961 (by decide) (by decide) (by decide) (by decide)).1⟩

/-- A sentinel resolution that succeeded is Missing exactly on the `-999`
token. -/
theorem sentinelFloat_none_iff (tok : String) (v : Option ℚ)
    (h : sentinelFloat tok = some v) : v = Option.none ↔ tok = "-999" := by
  by_cases htok : tok = "-999"
  · simp only [sentinelFloat, htok, if_pos, Option.some.injEq] at h
    subst h
    simp [htok]
  · simp only [sentinelFloat, htok, if_neg] at h
    cases hq : pyFloat tok with
    | none =>
      rw [hq] at h
      simp at h
    | some q =>
      rw [hq] at h
      simp at h
      subst h
      simp [htok]

/-- C7: a ten-minute temperature row that is well formed (non-header, valid
timestamp, both value tokens either `-999` or parseable) is excluded from the
decoder output exactly when both the temperature and the humidity token
resolve to Missing; when exactly one of them is `-999` the row yields exactly
one record carrying the other value and a null for the missing one. -/
theorem spec_c7_temp_row_drop_iff_both_missing
    (sid mess qn pres tt t5 rf td : String) (dtv : PyDateTime) (tv rv : Option ℚ)
    (h0 : pyStartswith sid "STATIONS_ID" = false)
    (hdt : strptime12 (pyStrip mess) = some dtv)
    (htt : sentinelFloat (pyStrip tt) = some tv)
    (hrf : sentinelFloat (pyStrip rf) = some rv) :
    ((tv = Option.none ↔ pyStrip tt = "-999") ∧ (rv = Option.none ↔ pyStrip rf = "-999"))
    ∧ (parse_10min_temp_rows [[sid, mess, qn, pres, tt, t5, rf, td]] = [] ↔
        (tv = Option.none ∧ rv = Option.none))
    ∧ (tv = Option.none → rv ≠ Option.none →
        parse_10min_temp_rows [[sid, mess, qn, pres, tt, t5, rf, td]] =
          [[("station_id", PyVal.str (pyStrip sid)), ("time", PyVal.dt dtv),
            ("temperature_10min", PyVal.null), ("humidity_10min", optVal rv)]])
    ∧ (rv = Option.none → tv ≠ Option.none →
        parse_10min_temp_rows [[sid, mess, qn, pres, tt, t5, rf, td]] =
          [[("station_id", PyVal.str (pyStrip sid)), ("time", PyVal.dt dtv),
            ("temperature_10min", optVal tv), ("humidity_10min", PyVal.null)]]) := by
  have key : parse10minTempRow [sid, mess, qn, pres, tt, t5, rf, td] =
      (if tv = Option.none ∧ rv = Option.none then Option.none
       else some [("station_id", PyVal.str (pyStrip sid)), ("time", PyVal.dt dtv),
                  ("temperature_10min", optVal tv), ("humidity_10min", optVal rv)]) := by
    simp only [parse10minTempRow, List.get?, h0, Bool.false_eq_true, if_false, hdt, htt, hrf]
  refine ⟨⟨sentinelFloat_none_iff _ _ htt, sentinelFloat_none_iff _ _ hrf⟩, ?_, ?_, ?_⟩
  · simp only [parse_10min_temp_rows, List.filterMap_cons, List.filterMap_nil, key]
    by_cases hc : tv = Option.none ∧ rv = Option.none
    · simp [hc]
    · simp [hc]
  · intro h1 h2
    rcases rv with _ | b
    · exact absurd rfl h2
    · subst h1
      simp [parse_10min_temp_rows, List.filterMap_cons, List.filterMap_nil, key, optVal]
  · intro h1 h2
    rcases tv with _ | a
    · exact absurd rfl h2
    · subst h1
      simp [parse_10min_temp_rows, List.filterMap_cons, List.filterMap_nil, key, optVal]

/-- C7 witness: a concrete row with TT_10 = `-999` and RF_10 = `85.5` is well
formed and yields exactly one record with temperature absent and humidity
present. -/
theorem spec_c7_witness :
    pyStartswith "91" "STATIONS_ID" = false
    ∧ strptime12 (pyStrip "202001010000") = some ⟨2020, 1, 1, 0, 0⟩
    ∧ sentinelFloat (pyStrip "-999") = some Option.none
    ∧ sentinelFloat (pyStrip "85.5") = some (some (mkRat 171 2))
    ∧ parse_10min_temp_rows [["91", "202001010000", "3", "990", "-999", "1", "85.5", "2"]] =
        [[("station_id", PyVal.str (pyStrip "91")), ("time", PyVal.dt ⟨2020, 1, 1, 0, 0⟩),
          ("temperature_10min", PyVal.null), ("humidity_10min", optVal (some (mkRat 171 2)))]] :=
  ⟨by decide, by decide, by decide, by decide,
   (spec_c7_temp_row_drop_iff_both_missing "91" "202001010000" "3" "990" "-999" "1" "85.5"
      "2" ⟨2020, 1, 1, 0, 0⟩ Option.none (some (mkRat 171 2)) (by decide) (by decide)
      (by decide) (by decide)).2.2.1 rfl (by decide)⟩

/-- C5 counterexample: a single failing fetch aborts the run both for a
multi-annual means file and for a historical directory listing, contradicting
the claim that no single fetch failure aborts the run. -/
theorem spec_c5_counterexample :
    fetch_multi_annual_means (fun _ => Except.error "404") "precipitation" []
        Option.none = Except.error "404"
    ∧ fetch_historical_10min_data (fun _ => Except.error "404") (fun _ => [])
        (fun _ => Except.ok []) ["00091"] "precipitation" [] = Except.error "404" :=
  ⟨rfl, rfl⟩

/-- C5 amended: a fetch failure on a 10-minute zip archive is caught inside
`fetch_and_write_zip` (logged, the archive skipped, the per-station loop
continuing over every configured station), but a fetch failure on a
multi-annual means file or on a directory listing is not caught and aborts the
run. -/
theorem spec_c5_fetch_failure_scopes :
    (∀ (fz : String → Except String (List (String × String))) (dty : String)
        (sm : List (String × String)) (url e : String),
      fz url = Except.error e → fetch_and_write_zip fz dty sm url = [])
    ∧ (∀ (fz : String → Except String (List (String × String))) (ids : List String)
        (dty per : String) (sm : List (String × String)),
      (fetch_recent_or_now_10min_data fz ids dty per sm).length = ids.length)
    ∧ (∀ (ft : String → Except String String) (dty : String)
        (sm : List (String × String)) (ids : Option (List String)) (e : String),
      ft (maUrl dty "1961-1990") = Except.error e →
      fetch_multi_annual_means ft dty sm ids = Except.error e)
    ∧ (∀ (ft : String → Except String String) (scrape : String → List String)
        (b p s e : String),
      ft b = Except.error e → list_dwd_files ft scrape b p s = Except.error e)
    ∧ (∀ (ft : String → Except String String) (scrape : String → List String)
        (fz : String → Except String (List (String × String))) (ids : List String)
        (dty : String) (sm : List (String × String)) (e : String),
      ft (HISTORICAL_URLS dty) = Except.error e →
      fetch_historical_10min_data ft scrape fz ids dty sm = Except.error e) := by
  refine ⟨?_, ?_, ?_, ?_, ?_⟩
  · intro fz dty sm url e h
    simp [fetch_and_write_zip, h]
  · intro fz ids dty per sm
    simp [fetch_recent_or_now_10min_data]
  · intro ft dty sm ids e h
    simp only [fetch_multi_annual_means, PERIOD_STRINGS, mapPeriods, fetchMAPeriod, h]
  · intro ft scrape b p s e h
    simp [list_dwd_files, h, Except.map]
  · intro ft scrape fz ids dty sm e h
    simp [fetch_historical_10min_data, list_dwd_files, h, Except.map]

/-- C5 witness: with a fetcher that always fails, the zip path returns an
empty batch and keeps one batch per station, while the multi-annual and
listing paths abort with the fetch error. -/
theorem spec_c5_witness :
    fetch_and_write_zip (fun _ => Except.error "404") "precipitation" [] "u" = []
    ∧ (fetch_recent_or_now_10min_data (fun _ => Except.error "404") ["91", "44"]
        "precipitation" "recent" []).length = ["91", "44"].length
    ∧ fetch_multi_annual_means (fun _ => Except.error "404") "temperature" []
        (some ["00091"]) = Except.error "404"
    ∧ list_dwd_files (fun _ => Except.error "404") (fun _ => []) "b" "p" "s" =
        Except.error "404"
    ∧ fetch_historical_10min_data (fun _ => Except.error "404") (fun _ => [])
        (fun _ => Except.ok []) ["91"] "temperature" [] = Except.error "404" :=
  ⟨spec_c5_fetch_failure_scopes.1 _ "precipitation" [] "u" "404" rfl,
   spec_c5_fetch_failure_scopes.2.1 _ ["91", "44"] "precipitation" "recent" [],
   spec_c5_fetch_failure_scopes.2.2.1 _ "temperature" [] (some ["00091"]) "404" rfl,
   spec_c5_fetch_failure_scopes.2.2.2.1 _ _ "b" "p" "s" "404" rfl,
   spec_c5_fetch_failure_scopes.2.2.2.2 _ _ _ ["91"] "temperature" [] "404" rfl⟩

end DwdInflux
